import Mathlib

/-!
Shallow embedding of the i2clcd HD44780/PCF8574 LCD driver (src/src/i2clcd.c,
src/src/i2clcd_internal.h, src/src/hd44780.h) and verification of its
specification claims.

Modelling conventions:
* Machine `uint8_t` values are `Nat` with `% 256` inserted exactly where the C
  code converts to `uint8_t` (parameter passing / assignment to a `uint8_t`).
* The I2C bus (`write(fd, &byte, 1)`) is modelled by a `Bus` record carrying a
  success oracle indexed by write attempt and a trace of every attempted
  one-byte write.  Delays (`nanosleep`) have no observable effect on the bus
  or session state and are omitted.
* The `i2clcd_t *` handle is `Option i2clcd_t`; `none` models a NULL handle.
  In-place mutation through the pointer is modelled by returning the updated
  session state.
* C strings (`const char *`) are `Option (List Nat)`; `none` models NULL and
  the list holds the bytes before the terminating NUL, so `strlen` is
  `List.length`.
* `line_addr[row]` for `row ≥ 4` is undefined behaviour in C (the array has 4
  slots); the model totalises it with `List.getD _ _ 0` and theorems that read
  the table restrict to `rows ≤ 4`.
-/

/-! ## Constants from hd44780.h and i2clcd_internal.h -/

def PCF8574_PIN_RS : Nat := 1
def PCF8574_PIN_RW : Nat := 2
def PCF8574_PIN_EN : Nat := 4
def PCF8574_PIN_BL : Nat := 8
def PCF8574_DATA_MASK : Nat := 0xF0

def HD44780_CMD_CLEAR : Nat := 0x01
def HD44780_CMD_HOME : Nat := 0x02
def HD44780_CMD_ENTRY_MODE : Nat := 0x04
def HD44780_CMD_DISPLAY_CTRL : Nat := 0x08
def HD44780_CMD_FUNCTION_SET : Nat := 0x20
def HD44780_CMD_SET_CGRAM : Nat := 0x40
def HD44780_CMD_SET_DDRAM : Nat := 0x80

def HD44780_ENTRY_INC : Nat := 0x02
def HD44780_DISPLAY_ON : Nat := 0x04
def HD44780_CURSOR_ON : Nat := 0x02
def HD44780_BLINK_ON : Nat := 0x01

def HD44780_4BIT_MODE : Nat := 0x00
def HD44780_2LINE : Nat := 0x08
def HD44780_5X8_DOTS : Nat := 0x00

def HD44780_LINE0_ADDR : Nat := 0x00
def HD44780_LINE1_ADDR : Nat := 0x40
def HD44780_LINE2_ADDR : Nat := 0x14
def HD44780_LINE3_ADDR : Nat := 0x54

/-! ## Error codes (i2clcd.h) -/

inductive i2clcd_err_t where
  | I2CLCD_OK
  | I2CLCD_ERR_OPEN
  | I2CLCD_ERR_IOCTL
  | I2CLCD_ERR_WRITE
  | I2CLCD_ERR_INVALID_ARG
  | I2CLCD_ERR_NOT_INIT
  | I2CLCD_ERR_RANGE
deriving DecidableEq, Repr

open i2clcd_err_t

/-! ## Size presets and configuration (i2clcd.h) -/

inductive i2clcd_size_t where
  | I2CLCD_16X2
  | I2CLCD_20X4
  | I2CLCD_CUSTOM
deriving DecidableEq, Repr

structure i2clcd_config_t where
  i2c_addr : Nat
  size : i2clcd_size_t
  cols : Nat
  rows : Nat
  backlight : Bool
deriving DecidableEq, Repr

/-! ## Session state (struct i2clcd_ctx, i2clcd_internal.h).
The `fd` field is subsumed by the `Bus` model. -/

structure i2clcd_t where
  i2c_addr : Nat
  cols : Nat
  rows : Nat
  display_ctrl : Nat
  entry_mode : Nat
  backlight : Bool
  line_addr : List Nat
deriving DecidableEq, Repr

/-! ## Bus model: `write(fd, &byte, 1)` succeeds iff the oracle allows the
current attempt; every attempt is recorded in the trace. -/

structure Bus where
  ok : Nat → Bool
  count : Nat
  trace : List Nat

/-- Oracle under which every bus write succeeds. -/
def allOk : Nat → Bool := fun _ => true

/-- A fresh bus whose writes all succeed. -/
def okBus : Bus := ⟨allOk, 0, []⟩

/-- A fresh bus whose writes all fail. -/
def failBus : Bus := ⟨fun _ => false, 0, []⟩

/-! ## Low-level I2C and LCD write functions (i2clcd.c) -/

/-- `i2clcd_i2c_write_byte`: one-byte bus write, returns 0 on success, -1 on
failure.  The `uint8_t byte` parameter truncates its argument. -/
def i2clcd_i2c_write_byte (_s : i2clcd_t) (byte : Nat) (bus : Bus) :
    Int × Bus :=
  let b := byte % 256
  if bus.ok bus.count then
    (0, ⟨bus.ok, bus.count + 1, bus.trace ++ [b]⟩)
  else
    (-1, ⟨bus.ok, bus.count + 1, bus.trace ++ [b]⟩)

/-- The expander data byte built at the top of `i2clcd_write_nibble`:
upper nibble is the data, RS bit per command/data, backlight bit preserved. -/
def i2clcd_nibble_data (s : i2clcd_t) (nibble : Nat) (rs : Bool) : Nat :=
  let data := nibble &&& PCF8574_DATA_MASK
  let data := if rs then data ||| PCF8574_PIN_RS else data
  if s.backlight then data ||| PCF8574_PIN_BL else data

/-- `i2clcd_write_nibble`: writes the encoded word with Enable HIGH, then the
same word with Enable LOW (falling edge latches). -/
def i2clcd_write_nibble (s : i2clcd_t) (nibble : Nat) (rs : Bool) (bus : Bus) :
    Int × Bus :=
  let data := i2clcd_nibble_data s nibble rs
  let r1 := i2clcd_i2c_write_byte s (data ||| PCF8574_PIN_EN) bus
  if r1.1 < 0 then r1
  else
    let r2 := i2clcd_i2c_write_byte s data r1.2
    if r2.1 < 0 then r2 else (0, r2.2)

/-- `i2clcd_write_byte`: high nibble first, then low nibble shifted to the
upper position.  The `uint8_t byte` parameter truncates its argument. -/
def i2clcd_write_byte (s : i2clcd_t) (byte : Nat) (rs : Bool) (bus : Bus) :
    Int × Bus :=
  let b := byte % 256
  let r1 := i2clcd_write_nibble s (b &&& 0xF0) rs bus
  if r1.1 < 0 then r1
  else i2clcd_write_nibble s ((b <<< 4) &&& 0xF0) rs r1.2

/-- `i2clcd_command`: byte write with RS clear. -/
def i2clcd_command (s : i2clcd_t) (cmd : Nat) (bus : Bus) : Int × Bus :=
  i2clcd_write_byte s cmd false bus

/-- `i2clcd_data`: byte write with RS set. -/
def i2clcd_data (s : i2clcd_t) (d : Nat) (bus : Bus) : Int × Bus :=
  i2clcd_write_byte s d true bus

/-- `i2clcd_update_display_ctrl`: re-send the whole display-control register. -/
def i2clcd_update_display_ctrl (s : i2clcd_t) (bus : Bus) : Int × Bus :=
  i2clcd_command s (HD44780_CMD_DISPLAY_CTRL ||| s.display_ctrl) bus

/-! ## Open / full-initialise (i2clcd.c).
`SysEnv` models the OS-level outcomes: `calloc`, `open(2)` of the device node
and the `I2C_SLAVE` ioctl. -/

structure SysEnv where
  alloc_ok : Bool
  open_ok : Bool
  ioctl_ok : Bool
deriving DecidableEq, Repr

/-- The session state built by a successful `i2clcd_open` (dimension switch,
fixed DDRAM line-address table, defaults for an already-running display).
The `I2CLCD_CUSTOM` case stores the caller's `uint8_t` cols/rows unvalidated. -/
def openCtx (config : i2clcd_config_t) : i2clcd_t :=
  let dims : Nat × Nat :=
    match config.size with
    | i2clcd_size_t.I2CLCD_16X2 => (16, 2)
    | i2clcd_size_t.I2CLCD_20X4 => (20, 4)
    | i2clcd_size_t.I2CLCD_CUSTOM => (config.cols % 256, config.rows % 256)
  { i2c_addr := config.i2c_addr % 256
    cols := dims.1
    rows := dims.2
    display_ctrl := HD44780_DISPLAY_ON
    entry_mode := HD44780_ENTRY_INC
    backlight := config.backlight
    line_addr := [HD44780_LINE0_ADDR, HD44780_LINE1_ADDR,
                  HD44780_LINE2_ADDR, HD44780_LINE3_ADDR] }

/-- `i2clcd_open`: allocate, record configuration, open the device, set the
slave address.  (NULL `config`/`handle` arguments, which return
`I2CLCD_ERR_INVALID_ARG`, are outside this model: both are taken non-null.) -/
def i2clcd_open (config : i2clcd_config_t) (env : SysEnv) :
    i2clcd_err_t × Option i2clcd_t :=
  if !env.alloc_ok then (I2CLCD_ERR_OPEN, none)
  else if !env.open_ok then (I2CLCD_ERR_OPEN, none)
  else if !env.ioctl_ok then (I2CLCD_ERR_IOCTL, none)
  else (I2CLCD_OK, some (openCtx config))

/-- The HD44780 4-bit-mode power-on sequence body of `i2clcd_init` (everything
after the successful `i2clcd_open`).  Exactly as in the source, the return
values of all bus writes in the sequence are discarded and the function ends
with `return I2CLCD_OK`. -/
def i2clcd_init_seq (ctx : i2clcd_t) (bus : Bus) :
    i2clcd_err_t × i2clcd_t × Bus :=
  -- delay_ms(HD44780_DELAY_INIT_MS); then backlight baseline, control pins low
  let r := i2clcd_i2c_write_byte ctx (if ctx.backlight then PCF8574_PIN_BL else 0) bus
  -- Step 1: 0x30 (Function Set, 8-bit) three times
  let r := i2clcd_write_nibble ctx 0x30 false r.2
  let r := i2clcd_write_nibble ctx 0x30 false r.2
  let r := i2clcd_write_nibble ctx 0x30 false r.2
  -- Step 2: 4-bit mode
  let r := i2clcd_write_nibble ctx 0x20 false r.2
  -- Step 3: function set (4-bit, 2-line, 5x8 dots)
  let r := i2clcd_command ctx (HD44780_CMD_FUNCTION_SET ||| HD44780_4BIT_MODE |||
                               HD44780_2LINE ||| HD44780_5X8_DOTS) r.2
  -- Step 4: display off
  let ctx := { ctx with display_ctrl := 0 }
  let r := i2clcd_command ctx HD44780_CMD_DISPLAY_CTRL r.2
  -- Step 5: entry mode set (increment, no shift)
  let ctx := { ctx with entry_mode := HD44780_ENTRY_INC }
  let r := i2clcd_command ctx (HD44780_CMD_ENTRY_MODE ||| ctx.entry_mode) r.2
  -- Step 6: display on
  let ctx := { ctx with display_ctrl := HD44780_DISPLAY_ON }
  let r := i2clcd_command ctx (HD44780_CMD_DISPLAY_CTRL ||| ctx.display_ctrl) r.2
  (I2CLCD_OK, ctx, r.2)

/-- `i2clcd_init`: open, then run the power-on sequence. -/
def i2clcd_init (config : i2clcd_config_t) (env : SysEnv) (bus : Bus) :
    i2clcd_err_t × Option i2clcd_t × Bus :=
  match i2clcd_open config env with
  | (I2CLCD_OK, some ctx) =>
      let r := i2clcd_init_seq ctx bus
      (r.1, some r.2.1, r.2.2)
  | (err, st) => (err, st, bus)

/-! ## Public session operations (i2clcd.c) -/

/-- `i2clcd_clear`. -/
def i2clcd_clear (handle : Option i2clcd_t) (bus : Bus) :
    i2clcd_err_t × Option i2clcd_t × Bus :=
  match handle with
  | none => (I2CLCD_ERR_NOT_INIT, none, bus)
  | some s =>
    let r := i2clcd_command s HD44780_CMD_CLEAR bus
    if r.1 < 0 then (I2CLCD_ERR_WRITE, some s, r.2)
    else (I2CLCD_OK, some s, r.2)

/-- `i2clcd_home`. -/
def i2clcd_home (handle : Option i2clcd_t) (bus : Bus) :
    i2clcd_err_t × Option i2clcd_t × Bus :=
  match handle with
  | none => (I2CLCD_ERR_NOT_INIT, none, bus)
  | some s =>
    let r := i2clcd_command s HD44780_CMD_HOME bus
    if r.1 < 0 then (I2CLCD_ERR_WRITE, some s, r.2)
    else (I2CLCD_OK, some s, r.2)

/-- `i2clcd_set_cursor`: validate the position, then send Set DDRAM Address
with `line_addr[row] + col` (`uint8_t addr` truncates). -/
def i2clcd_set_cursor (handle : Option i2clcd_t) (col row : Nat) (bus : Bus) :
    i2clcd_err_t × Option i2clcd_t × Bus :=
  match handle with
  | none => (I2CLCD_ERR_NOT_INIT, none, bus)
  | some s =>
    let col := col % 256
    let row := row % 256
    if row ≥ s.rows ∨ col ≥ s.cols then (I2CLCD_ERR_RANGE, some s, bus)
    else
      let addr := (s.line_addr.getD row 0 + col) % 256
      let r := i2clcd_command s (HD44780_CMD_SET_DDRAM ||| addr) bus
      if r.1 < 0 then (I2CLCD_ERR_WRITE, some s, r.2)
      else (I2CLCD_OK, some s, r.2)

/-- The `for (i = 0; i < handle->cols; i++)` space-fill loop of
`i2clcd_clear_line`, aborting on the first failed write. -/
def i2clcd_clear_line_loop (s : i2clcd_t) (n : Nat) (bus : Bus) : Int × Bus :=
  match n with
  | 0 => (0, bus)
  | Nat.succ m =>
    let r := i2clcd_data s 32 bus
    if r.1 < 0 then r else i2clcd_clear_line_loop s m r.2

/-- `i2clcd_clear_line`: bounds check, reposition to (0, line), fill the line
with spaces. -/
def i2clcd_clear_line (handle : Option i2clcd_t) (line : Nat) (bus : Bus) :
    i2clcd_err_t × Option i2clcd_t × Bus :=
  match handle with
  | none => (I2CLCD_ERR_NOT_INIT, none, bus)
  | some s =>
    let line := line % 256
    if line ≥ s.rows then (I2CLCD_ERR_RANGE, some s, bus)
    else
      let rc := i2clcd_set_cursor (some s) 0 line bus
      if rc.1 ≠ I2CLCD_OK then (rc.1, some s, rc.2.2)
      else
        let r := i2clcd_clear_line_loop s s.cols rc.2.2
        if r.1 < 0 then (I2CLCD_ERR_WRITE, some s, r.2)
        else (I2CLCD_OK, some s, r.2)

/-- `i2clcd_display`: set/clear the display-on bit (C: `|= 0x04` /
`&= ~0x04` on a `uint8_t`, hence `&&& 0xFB`), then re-send the register. -/
def i2clcd_display (handle : Option i2clcd_t) (o : Bool) (bus : Bus) :
    i2clcd_err_t × Option i2clcd_t × Bus :=
  match handle with
  | none => (I2CLCD_ERR_NOT_INIT, none, bus)
  | some s =>
    let s := { s with display_ctrl :=
      if o then s.display_ctrl ||| HD44780_DISPLAY_ON
      else s.display_ctrl &&& 0xFB }
    let r := i2clcd_update_display_ctrl s bus
    if r.1 < 0 then (I2CLCD_ERR_WRITE, some s, r.2)
    else (I2CLCD_OK, some s, r.2)

/-- `i2clcd_cursor`: set/clear the cursor-on bit (C: `|= 0x02` / `&= ~0x02`,
hence `&&& 0xFD`), then re-send the register. -/
def i2clcd_cursor (handle : Option i2clcd_t) (visible : Bool) (bus : Bus) :
    i2clcd_err_t × Option i2clcd_t × Bus :=
  match handle with
  | none => (I2CLCD_ERR_NOT_INIT, none, bus)
  | some s =>
    let s := { s with display_ctrl :=
      if visible then s.display_ctrl ||| HD44780_CURSOR_ON
      else s.display_ctrl &&& 0xFD }
    let r := i2clcd_update_display_ctrl s bus
    if r.1 < 0 then (I2CLCD_ERR_WRITE, some s, r.2)
    else (I2CLCD_OK, some s, r.2)

/-- `i2clcd_blink`: set/clear the blink-on bit (C: `|= 0x01` / `&= ~0x01`,
hence `&&& 0xFE`), then re-send the register. -/
def i2clcd_blink (handle : Option i2clcd_t) (blink : Bool) (bus : Bus) :
    i2clcd_err_t × Option i2clcd_t × Bus :=
  match handle with
  | none => (I2CLCD_ERR_NOT_INIT, none, bus)
  | some s =>
    let s := { s with display_ctrl :=
      if blink then s.display_ctrl ||| HD44780_BLINK_ON
      else s.display_ctrl &&& 0xFE }
    let r := i2clcd_update_display_ctrl s bus
    if r.1 < 0 then (I2CLCD_ERR_WRITE, some s, r.2)
    else (I2CLCD_OK, some s, r.2)

/-- `i2clcd_putc`. -/
def i2clcd_putc (handle : Option i2clcd_t) (c : Nat) (bus : Bus) :
    i2clcd_err_t × Option i2clcd_t × Bus :=
  match handle with
  | none => (I2CLCD_ERR_NOT_INIT, none, bus)
  | some s =>
    let r := i2clcd_data s c bus
    if r.1 < 0 then (I2CLCD_ERR_WRITE, some s, r.2)
    else (I2CLCD_OK, some s, r.2)

/-- The `while (*str)` loop of `i2clcd_puts`. -/
def i2clcd_puts_loop (s : i2clcd_t) (str : List Nat) (bus : Bus) : Int × Bus :=
  match str with
  | [] => (0, bus)
  | c :: rest =>
    let r := i2clcd_data s c bus
    if r.1 < 0 then r else i2clcd_puts_loop s rest r.2

/-- `i2clcd_puts`. -/
def i2clcd_puts (handle : Option i2clcd_t) (str : Option (List Nat)) (bus : Bus) :
    i2clcd_err_t × Option i2clcd_t × Bus :=
  match handle with
  | none => (I2CLCD_ERR_NOT_INIT, none, bus)
  | some s =>
    match str with
    | none => (I2CLCD_ERR_INVALID_ARG, some s, bus)
    | some cs =>
      let r := i2clcd_puts_loop s cs bus
      if r.1 < 0 then (I2CLCD_ERR_WRITE, some s, r.2)
      else (I2CLCD_OK, some s, r.2)

/-- `i2clcd_printf`, modelled after `vsnprintf` rendering: `rendered` is the
formatted output, truncated by the 128-byte local buffer to 127 characters,
then written as by `i2clcd_puts`. -/
def i2clcd_printf (handle : Option i2clcd_t) (rendered : Option (List Nat))
    (bus : Bus) : i2clcd_err_t × Option i2clcd_t × Bus :=
  match handle with
  | none => (I2CLCD_ERR_NOT_INIT, none, bus)
  | some s =>
    match rendered with
    | none => (I2CLCD_ERR_INVALID_ARG, some s, bus)
    | some cs => i2clcd_puts (some s) (some (cs.take 127)) bus

/-- The `for (i = 0; i < handle->cols; i++)` loop of `i2clcd_set_line`:
character `i` of the text when `i < strlen(text)`, space otherwise. -/
def i2clcd_set_line_loop (s : i2clcd_t) (text : List Nat) (i n : Nat)
    (bus : Bus) : Int × Bus :=
  match n with
  | 0 => (0, bus)
  | Nat.succ m =>
    let c := if i < text.length then text.getD i 0 else 32
    let r := i2clcd_data s c bus
    if r.1 < 0 then r else i2clcd_set_line_loop s text (i + 1) m r.2

/-- `i2clcd_set_line`: validate, reposition to (0, line), write exactly
`cols` characters padding with spaces. -/
def i2clcd_set_line (handle : Option i2clcd_t) (line : Nat)
    (text : Option (List Nat)) (bus : Bus) :
    i2clcd_err_t × Option i2clcd_t × Bus :=
  match handle with
  | none => (I2CLCD_ERR_NOT_INIT, none, bus)
  | some s =>
    match text with
    | none => (I2CLCD_ERR_INVALID_ARG, some s, bus)
    | some t =>
      let line := line % 256
      if line ≥ s.rows then (I2CLCD_ERR_RANGE, some s, bus)
      else
        let rc := i2clcd_set_cursor (some s) 0 line bus
        if rc.1 ≠ I2CLCD_OK then (rc.1, some s, rc.2.2)
        else
          let r := i2clcd_set_line_loop s t 0 s.cols rc.2.2
          if r.1 < 0 then (I2CLCD_ERR_WRITE, some s, r.2)
          else (I2CLCD_OK, some s, r.2)

/-- `i2clcd_backlight`: record the flag, then issue a raw write carrying only
the backlight bit. -/
def i2clcd_backlight (handle : Option i2clcd_t) (o : Bool) (bus : Bus) :
    i2clcd_err_t × Option i2clcd_t × Bus :=
  match handle with
  | none => (I2CLCD_ERR_NOT_INIT, none, bus)
  | some s =>
    let s := { s with backlight := o }
    let r := i2clcd_i2c_write_byte s (if o then PCF8574_PIN_BL else 0) bus
    if r.1 < 0 then (I2CLCD_ERR_WRITE, some s, r.2)
    else (I2CLCD_OK, some s, r.2)

/-- `i2clcd_backlight_get`: pure state read (modelled with the NULL `on`
out-pointer excluded). -/
def i2clcd_backlight_get (handle : Option i2clcd_t) (bus : Bus) :
    i2clcd_err_t × Option Bool × Option i2clcd_t × Bus :=
  match handle with
  | none => (I2CLCD_ERR_NOT_INIT, none, none, bus)
  | some s => (I2CLCD_OK, some s.backlight, some s, bus)

/-- The 8-byte pattern loop of `i2clcd_create_char`. -/
def i2clcd_create_char_loop (s : i2clcd_t) (charmap : List Nat) (i n : Nat)
    (bus : Bus) : Int × Bus :=
  match n with
  | 0 => (0, bus)
  | Nat.succ m =>
    let r := i2clcd_data s (charmap.getD i 0) bus
    if r.1 < 0 then r else i2clcd_create_char_loop s charmap (i + 1) m r.2

/-- `i2clcd_create_char`: validate the slot, set the CGRAM address
(`location << 3`), write the 8 pattern bytes, return to DDRAM mode. -/
def i2clcd_create_char (handle : Option i2clcd_t) (location : Nat)
    (charmap : Option (List Nat)) (bus : Bus) :
    i2clcd_err_t × Option i2clcd_t × Bus :=
  match handle with
  | none => (I2CLCD_ERR_NOT_INIT, none, bus)
  | some s =>
    match charmap with
    | none => (I2CLCD_ERR_INVALID_ARG, some s, bus)
    | some cm =>
      let location := location % 256
      if location > 7 then (I2CLCD_ERR_RANGE, some s, bus)
      else
        let r := i2clcd_command s (HD44780_CMD_SET_CGRAM ||| (location <<< 3)) bus
        if r.1 < 0 then (I2CLCD_ERR_WRITE, some s, r.2)
        else
          let r := i2clcd_create_char_loop s cm 0 8 r.2
          if r.1 < 0 then (I2CLCD_ERR_WRITE, some s, r.2)
          else
            let r := i2clcd_command s HD44780_CMD_SET_DDRAM r.2
            if r.1 < 0 then (I2CLCD_ERR_WRITE, some s, r.2)
            else (I2CLCD_OK, some s, r.2)

/-- `i2clcd_get_size`: pure state read. -/
def i2clcd_get_size (handle : Option i2clcd_t) (bus : Bus) :
    i2clcd_err_t × Option (Nat × Nat) × Option i2clcd_t × Bus :=
  match handle with
  | none => (I2CLCD_ERR_NOT_INIT, none, none, bus)
  | some s => (I2CLCD_OK, some (s.cols, s.rows), some s, bus)

/-! ## Spec-side descriptions of the wire protocol, used to state the claims -/

/-- The control bits of an expander word per the spec: bit0 = register-select,
bit1 = read/write (always 0), bit3 = backlight. -/
def pcf_ctl (rs bl : Bool) : Nat :=
  (if rs then 1 else 0) ||| (if bl then 8 else 0)

/-- The two one-byte writes of a nibble transmission: the word with Enable
(bit2) high, then the identical word with Enable cleared. -/
def nibbleWrites (rs bl : Bool) (hi : Nat) : List Nat :=
  [hi ||| pcf_ctl rs bl ||| PCF8574_PIN_EN, hi ||| pcf_ctl rs bl]

/-- The four one-byte writes of a full-byte transmission: high nibble first,
then the low nibble shifted into the high position. -/
def byteWrites (rs bl : Bool) (b : Nat) : List Nat :=
  nibbleWrites rs bl (b &&& 0xF0) ++ nibbleWrites rs bl ((b <<< 4) &&& 0xF0)

/-- Projection: display-control register of a possibly-NULL handle. -/
def handle_ctrl (h : Option i2clcd_t) : Nat :=
  match h with
  | none => 0
  | some s => s.display_ctrl

/-- Projection: DDRAM line-address table of a possibly-NULL handle. -/
def handle_line_addr (h : Option i2clcd_t) : List Nat :=
  match h with
  | none => []
  | some s => s.line_addr

/-! ## General lemmas about the write primitives -/

lemma or_lt_256 {a b : Nat} (ha : a < 256) (hb : b < 256) : a ||| b < 256 := by
  have h := @Nat.or_lt_two_pow a b 8 (by simpa using ha) (by simpa using hb)
  simpa using h

lemma nibble_data_eq (s : i2clcd_t) (n : Nat) (rs : Bool) :
    i2clcd_nibble_data s n rs = (n &&& 0xF0) ||| pcf_ctl rs s.backlight := by
  unfold i2clcd_nibble_data pcf_ctl PCF8574_DATA_MASK PCF8574_PIN_RS PCF8574_PIN_BL
  cases rs <;> cases hb : s.backlight <;>
    simp [Nat.or_assoc]

lemma nibble_data_lt (s : i2clcd_t) (n : Nat) (rs : Bool) :
    i2clcd_nibble_data s n rs < 256 := by
  rw [nibble_data_eq]
  refine or_lt_256 (lt_of_le_of_lt (Nat.and_le_right) (by norm_num)) ?_
  unfold pcf_ctl
  cases rs <;> cases s.backlight <;> decide

lemma i2c_write_byte_allOk (s : i2clcd_t) (b : Nat) (bus : Bus)
    (h : bus.ok = allOk) :
    i2clcd_i2c_write_byte s b bus =
      (0, ⟨bus.ok, bus.count + 1, bus.trace ++ [b % 256]⟩) := by
  simp [i2clcd_i2c_write_byte, h, allOk]

lemma i2c_write_byte_fail (s : i2clcd_t) (b : Nat) (bus : Bus)
    (h : bus.ok bus.count = false) :
    i2clcd_i2c_write_byte s b bus =
      (-1, ⟨bus.ok, bus.count + 1, bus.trace ++ [b % 256]⟩) := by
  simp [i2clcd_i2c_write_byte, h]

lemma write_nibble_allOk (s : i2clcd_t) (n : Nat) (rs : Bool) (bus : Bus)
    (h : bus.ok = allOk) :
    i2clcd_write_nibble s n rs bus =
      (0, ⟨bus.ok, bus.count + 2,
           bus.trace ++ [i2clcd_nibble_data s n rs ||| PCF8574_PIN_EN,
                         i2clcd_nibble_data s n rs]⟩) := by
  have hd := nibble_data_lt s n rs
  have hd4 : i2clcd_nibble_data s n rs ||| PCF8574_PIN_EN < 256 :=
    or_lt_256 hd (by norm_num [PCF8574_PIN_EN])
  simp [i2clcd_write_nibble, i2clcd_i2c_write_byte, h, allOk,
        Nat.mod_eq_of_lt hd, Nat.mod_eq_of_lt hd4]

lemma write_nibble_fail_first (s : i2clcd_t) (n : Nat) (rs : Bool) (bus : Bus)
    (h : bus.ok bus.count = false) :
    (i2clcd_write_nibble s n rs bus).1 = -1 := by
  simp [i2clcd_write_nibble, i2c_write_byte_fail _ _ _ h]

lemma write_byte_allOk (s : i2clcd_t) (b : Nat) (rs : Bool) (bus : Bus)
    (h : bus.ok = allOk) :
    i2clcd_write_byte s b rs bus =
      (0, ⟨bus.ok, bus.count + 4,
           bus.trace ++ byteWrites rs s.backlight (b % 256)⟩) := by
  simp only [i2clcd_write_byte]
  simp [write_nibble_allOk, h, byteWrites, nibbleWrites, nibble_data_eq,
        Nat.or_assoc, Nat.and_assoc, List.append_assoc]

lemma write_byte_fail_first (s : i2clcd_t) (b : Nat) (rs : Bool) (bus : Bus)
    (h : bus.ok bus.count = false) :
    (i2clcd_write_byte s b rs bus).1 < 0 := by
  simp only [i2clcd_write_byte]
  have h1 := write_nibble_fail_first s ((b % 256) &&& 0xF0) rs bus h
  simp [h1]

lemma command_allOk (s : i2clcd_t) (cmd : Nat) (bus : Bus)
    (h : bus.ok = allOk) :
    i2clcd_command s cmd bus =
      (0, ⟨bus.ok, bus.count + 4,
           bus.trace ++ byteWrites false s.backlight (cmd % 256)⟩) :=
  write_byte_allOk s cmd false bus h

lemma data_allOk (s : i2clcd_t) (d : Nat) (bus : Bus)
    (h : bus.ok = allOk) :
    i2clcd_data s d bus =
      (0, ⟨bus.ok, bus.count + 4,
           bus.trace ++ byteWrites true s.backlight (d % 256)⟩) :=
  write_byte_allOk s d true bus h

lemma open_ok_shape (config : i2clcd_config_t) (env : SysEnv)
    (h : (i2clcd_open config env).1 = I2CLCD_OK) :
    i2clcd_open config env = (I2CLCD_OK, some (openCtx config)) := by
  rcases env with ⟨a, o, i⟩
  cases a <;> cases o <;> cases i <;> simp_all [i2clcd_open]

lemma init_seq_fst (ctx : i2clcd_t) (bus : Bus) :
    (i2clcd_init_seq ctx bus).1 = I2CLCD_OK := rfl

lemma init_seq_ctx (ctx : i2clcd_t) (bus : Bus) :
    (i2clcd_init_seq ctx bus).2.1 =
      { ctx with display_ctrl := HD44780_DISPLAY_ON,
                 entry_mode := HD44780_ENTRY_INC } := rfl

/-! ## Expected wire traffic of the power-on sequence (spec side) -/

/-- The bus traffic the spec prescribes for `i2clcd_init` after the power-on
delay: backlight baseline, three 8-bit-mode nibbles, one 4-bit-mode nibble,
then function-set, display-off, entry-mode, display-on as full bytes. -/
def initWrites (bl : Bool) : List Nat :=
  [if bl then PCF8574_PIN_BL else 0]
  ++ nibbleWrites false bl 0x30
  ++ nibbleWrites false bl 0x30
  ++ nibbleWrites false bl 0x30
  ++ nibbleWrites false bl 0x20
  ++ byteWrites false bl (HD44780_CMD_FUNCTION_SET ||| HD44780_4BIT_MODE |||
                          HD44780_2LINE ||| HD44780_5X8_DOTS)
  ++ byteWrites false bl HD44780_CMD_DISPLAY_CTRL
  ++ byteWrites false bl (HD44780_CMD_ENTRY_MODE ||| HD44780_ENTRY_INC)
  ++ byteWrites false bl (HD44780_CMD_DISPLAY_CTRL ||| HD44780_DISPLAY_ON)

lemma init_seq_trace (ctx : i2clcd_t) (bus : Bus) (h : bus.ok = allOk) :
    (i2clcd_init_seq ctx bus).2.2.trace = bus.trace ++ initWrites ctx.backlight := by
  have hbl : (if ctx.backlight then PCF8574_PIN_BL else 0) % 256 =
      (if ctx.backlight then PCF8574_PIN_BL else 0) := by
    cases ctx.backlight <;> rfl
  have h48 : (48 : Nat) &&& 240 = 48 := by decide
  have h32 : (32 : Nat) &&& 240 = 32 := by decide
  simp [h48, h32, i2clcd_init_seq, i2clcd_i2c_write_byte, h, allOk, hbl,
        write_nibble_allOk, command_allOk, nibbleWrites, nibble_data_eq,
        initWrites, PCF8574_DATA_MASK, HD44780_CMD_FUNCTION_SET,
        HD44780_4BIT_MODE, HD44780_2LINE, HD44780_5X8_DOTS,
        HD44780_CMD_DISPLAY_CTRL, HD44780_CMD_ENTRY_MODE, HD44780_ENTRY_INC,
        HD44780_DISPLAY_ON, PCF8574_PIN_EN, List.append_assoc]

/-! ## Concrete inputs used by witnesses and counterexamples -/

def envAll : SysEnv := ⟨true, true, true⟩

def cfg16 : i2clcd_config_t := ⟨0x27, i2clcd_size_t.I2CLCD_16X2, 0, 0, true⟩

def cfgCustom00 : i2clcd_config_t := ⟨0x27, i2clcd_size_t.I2CLCD_CUSTOM, 0, 0, true⟩

def sampleCtx : i2clcd_t :=
  ⟨0x27, 16, 2, 4, 2, true, [0x00, 0x40, 0x14, 0x54]⟩

def c3ctx : i2clcd_t :=
  ⟨0x27, 16, 2, 4, 2, false, [0x00, 0x40, 0x14, 0x54]⟩

/-! ## Claim C1 -/

/-- C1 counterexample: with the connection opened successfully but every bus
write failing, `i2clcd_init` attempts nine bus writes, all of which fail, and
still returns `I2CLCD_OK` — the failure is not surfaced to the caller. -/
theorem c1_counterexample :
    (i2clcd_init cfg16 envAll failBus).1 = I2CLCD_OK ∧
    (i2clcd_init cfg16 envAll failBus).2.2.trace.length = 9 ∧
    failBus.ok 0 = false := by decide

/-- C1 amended: once `i2clcd_open` has succeeded, `i2clcd_init` discards the
result of every bus write in the initialization sequence and always returns
`I2CLCD_OK`, whatever the bus does. -/
theorem c1_init_ignores_write_failures (config : i2clcd_config_t)
    (env : SysEnv) (bus : Bus)
    (hopen : (i2clcd_open config env).1 = I2CLCD_OK) :
    (i2clcd_init config env bus).1 = I2CLCD_OK := by
  have hsh := open_ok_shape config env hopen
  simp [i2clcd_init, hsh, init_seq_fst]

theorem c1_witness : (i2clcd_init cfg16 envAll failBus).1 = I2CLCD_OK :=
  c1_init_ignores_write_failures cfg16 envAll failBus rfl

/-! ## Claim C2 -/

/-- C2 counterexample: `i2clcd_open` accepts an `I2CLCD_CUSTOM` configuration
with `cols = 0` and `rows = 0` and returns a session with `cols = 0` and
`rows = 0`, violating `columns > 0 ∧ rows > 0`. -/
theorem c2_counterexample :
    (i2clcd_open cfgCustom00 envAll).1 = I2CLCD_OK ∧
    (i2clcd_open cfgCustom00 envAll).2 = some (openCtx cfgCustom00) ∧
    (openCtx cfgCustom00).rows = 0 ∧ (openCtx cfgCustom00).cols = 0 := by
  decide

/-- C2 amended: every session returned successfully by `i2clcd_open` or
`i2clcd_init` for one of the preset sizes (16x2 or 20x4) satisfies
`cols > 0`, `rows > 0` and `rows ≤ 4`; `I2CLCD_CUSTOM` stores the
caller-supplied dimensions unvalidated and can violate the invariant. -/
theorem c2_preset_invariant (config : i2clcd_config_t) (env : SysEnv)
    (bus : Bus)
    (hpreset : config.size = i2clcd_size_t.I2CLCD_16X2 ∨
               config.size = i2clcd_size_t.I2CLCD_20X4) :
    (∀ s, (i2clcd_open config env).2 = some s →
        0 < s.cols ∧ 0 < s.rows ∧ s.rows ≤ 4) ∧
    (∀ s, (i2clcd_init config env bus).2.1 = some s →
        0 < s.cols ∧ 0 < s.rows ∧ s.rows ≤ 4) := by
  rcases env with ⟨a, o, i⟩
  cases a <;> cases o <;> cases i <;>
    rcases hpreset with hsz | hsz <;>
      simp_all [i2clcd_open, i2clcd_init, openCtx, init_seq_ctx]

theorem c2_witness :
    (∀ s, (i2clcd_open cfg16 envAll).2 = some s →
        0 < s.cols ∧ 0 < s.rows ∧ s.rows ≤ 4) ∧
    (∀ s, (i2clcd_init cfg16 envAll okBus).2.1 = some s →
        0 < s.cols ∧ 0 < s.rows ∧ s.rows ≤ 4) :=
  c2_preset_invariant cfg16 envAll okBus (Or.inl rfl)

/-! ## Claim C3 -/

/-- C3 counterexample: on a session with `display_ctrl = 4`, `i2clcd_blink
true` over a failing bus returns `I2CLCD_ERR_WRITE` yet leaves the recorded
`display_ctrl` at 5 — the blink bit was set before the failed send, so the
shadow state does not match what was successfully sent. -/
theorem c3_counterexample :
    (i2clcd_blink (some c3ctx) true failBus).1 = I2CLCD_ERR_WRITE ∧
    c3ctx.display_ctrl = 4 ∧
    handle_ctrl (i2clcd_blink (some c3ctx) true failBus).2.1 = 5 := by decide

/-- C3 amended: when the underlying transmission fails, `i2clcd_display`,
`i2clcd_cursor`, `i2clcd_blink` and `i2clcd_backlight` return
`I2CLCD_ERR_WRITE`, but the recorded flag state has already been updated to
the requested value before the send — the shadow state reflects the request,
not what was successfully transmitted. -/
theorem c3_flags_updated_before_send (s : i2clcd_t) (o : Bool) (bus : Bus)
    (hf : bus.ok bus.count = false) :
    ((i2clcd_display (some s) o bus).1 = I2CLCD_ERR_WRITE ∧
     (i2clcd_display (some s) o bus).2.1 =
       some { s with display_ctrl :=
         if o then s.display_ctrl ||| HD44780_DISPLAY_ON
         else s.display_ctrl &&& 0xFB }) ∧
    ((i2clcd_cursor (some s) o bus).1 = I2CLCD_ERR_WRITE ∧
     (i2clcd_cursor (some s) o bus).2.1 =
       some { s with display_ctrl :=
         if o then s.display_ctrl ||| HD44780_CURSOR_ON
         else s.display_ctrl &&& 0xFD }) ∧
    ((i2clcd_blink (some s) o bus).1 = I2CLCD_ERR_WRITE ∧
     (i2clcd_blink (some s) o bus).2.1 =
       some { s with display_ctrl :=
         if o then s.display_ctrl ||| HD44780_BLINK_ON
         else s.display_ctrl &&& 0xFE }) ∧
    ((i2clcd_backlight (some s) o bus).1 = I2CLCD_ERR_WRITE ∧
     (i2clcd_backlight (some s) o bus).2.1 = some { s with backlight := o }) := by
  refine ⟨⟨?_, ?_⟩, ⟨?_, ?_⟩, ⟨?_, ?_⟩, ⟨?_, ?_⟩⟩ <;>
    simp [i2clcd_display, i2clcd_cursor, i2clcd_blink, i2clcd_backlight,
          i2clcd_update_display_ctrl, i2clcd_command,
          write_byte_fail_first, i2c_write_byte_fail, hf]

theorem c3_witness :
    ((i2clcd_display (some c3ctx) true failBus).1 = I2CLCD_ERR_WRITE ∧
     (i2clcd_display (some c3ctx) true failBus).2.1 =
       some { c3ctx with display_ctrl :=
         if true then c3ctx.display_ctrl ||| HD44780_DISPLAY_ON
         else c3ctx.display_ctrl &&& 0xFB }) ∧
    ((i2clcd_cursor (some c3ctx) true failBus).1 = I2CLCD_ERR_WRITE ∧
     (i2clcd_cursor (some c3ctx) true failBus).2.1 =
       some { c3ctx with display_ctrl :=
         if true then c3ctx.display_ctrl ||| HD44780_CURSOR_ON
         else c3ctx.display_ctrl &&& 0xFD }) ∧
    ((i2clcd_blink (some c3ctx) true failBus).1 = I2CLCD_ERR_WRITE ∧
     (i2clcd_blink (some c3ctx) true failBus).2.1 =
       some { c3ctx with display_ctrl :=
         if true then c3ctx.display_ctrl ||| HD44780_BLINK_ON
         else c3ctx.display_ctrl &&& 0xFE }) ∧
    ((i2clcd_backlight (some c3ctx) true failBus).1 = I2CLCD_ERR_WRITE ∧
     (i2clcd_backlight (some c3ctx) true failBus).2.1 =
       some { c3ctx with backlight := true }) :=
  c3_flags_updated_before_send c3ctx true failBus rfl

/-! ## Claim C4 -/

/-- C4: after the power-on delay, `i2clcd_init` issues exactly one
backlight-baseline raw write (backlight bit only, enable low), three
8-bit-mode nibble transmissions of 0x30 (each as an enable-high write followed
by the same word with enable low), one 4-bit-mode nibble transmission of 0x20,
then the four full-byte commands function-set (4-bit, 2-line, 5x8),
display-off, entry-mode (increment, no shift), display-on, in that order. -/
theorem c4_init_sequence (config : i2clcd_config_t) (env : SysEnv) (bus : Bus)
    (hopen : (i2clcd_open config env).1 = I2CLCD_OK) (h : bus.ok = allOk) :
    (i2clcd_init config env bus).2.2.trace =
      bus.trace ++ initWrites config.backlight := by
  have hsh := open_ok_shape config env hopen
  have hseq := init_seq_trace (openCtx config) bus h
  have hbl : (openCtx config).backlight = config.backlight := rfl
  simp [i2clcd_init, hsh]
  rw [hseq, hbl]

theorem c4_witness :
    (i2clcd_init cfg16 envAll okBus).2.2.trace =
      okBus.trace ++ initWrites cfg16.backlight :=
  c4_init_sequence cfg16 envAll okBus rfl rfl

/-! ## Claim C5 -/

/-- C5: `i2clcd_write_byte` on byte `b`, register-select `rs` and session
backlight `bl` issues exactly four one-byte writes in order:
`(b & 0xF0)|ctl|EN`, `(b & 0xF0)|ctl`, `((b << 4) & 0xF0)|ctl|EN`,
`((b << 4) & 0xF0)|ctl`, with `ctl` carrying bit0 = rs, bit1 = 0, bit3 = bl
and `EN` = bit2 — high nibble first, each nibble with enable high then the
identical word with enable cleared. -/
theorem c5_byte_transmission (s : i2clcd_t) (b : Nat) (rs : Bool) (bus : Bus)
    (hb : b < 256) (h : bus.ok = allOk) :
    (i2clcd_write_byte s b rs bus).1 = 0 ∧
    (i2clcd_write_byte s b rs bus).2.trace =
      bus.trace ++
        [(b &&& 0xF0) ||| pcf_ctl rs s.backlight ||| PCF8574_PIN_EN,
         (b &&& 0xF0) ||| pcf_ctl rs s.backlight,
         ((b <<< 4) &&& 0xF0) ||| pcf_ctl rs s.backlight ||| PCF8574_PIN_EN,
         ((b <<< 4) &&& 0xF0) ||| pcf_ctl rs s.backlight] := by
  have hw := write_byte_allOk s b rs bus h
  rw [hw]
  simp [byteWrites, nibbleWrites, Nat.mod_eq_of_lt hb]

theorem c5_witness :
    (i2clcd_write_byte sampleCtx 0xA5 true okBus).1 = 0 ∧
    (i2clcd_write_byte sampleCtx 0xA5 true okBus).2.trace =
      okBus.trace ++
        [(0xA5 &&& 0xF0) ||| pcf_ctl true sampleCtx.backlight ||| PCF8574_PIN_EN,
         (0xA5 &&& 0xF0) ||| pcf_ctl true sampleCtx.backlight,
         ((0xA5 <<< 4) &&& 0xF0) ||| pcf_ctl true sampleCtx.backlight ||| PCF8574_PIN_EN,
         ((0xA5 <<< 4) &&& 0xF0) ||| pcf_ctl true sampleCtx.backlight] :=
  c5_byte_transmission sampleCtx 0xA5 true okBus (by decide) rfl

/-! ## Loop lemmas for set_line and create_char -/

lemma getD_lt_of_forall {l : List Nat} (hl : ∀ c ∈ l, c < 256) (i : Nat)
    (h : i < l.length) : l.getD i 0 < 256 := by
  have he : l.getD i 0 = l[i] := by
    simp [List.getD_eq_getElem?_getD, List.getElem?_eq_getElem h]
  rw [he]
  exact hl _ (List.getElem_mem h)

lemma set_line_loop_allOk (s : i2clcd_t) (text : List Nat)
    (htext : ∀ c ∈ text, c < 256) :
    ∀ (n i : Nat) (bus : Bus), bus.ok = allOk →
      i2clcd_set_line_loop s text i n bus =
        (0, ⟨bus.ok, bus.count + 4 * n,
             bus.trace ++ ((List.range' i n).map (fun j =>
               byteWrites true s.backlight
                 (if j < text.length then text.getD j 0 else 32))).flatten⟩) := by
  intro n
  induction n with
  | zero => intro i bus h; simp [i2clcd_set_line_loop]
  | succ m ih =>
    intro i bus h
    have hc : (if i < text.length then text.getD i 0 else 32) < 256 := by
      split
      · exact getD_lt_of_forall htext i (by assumption)
      · norm_num
    simp only [i2clcd_set_line_loop]
    rw [data_allOk s _ bus h]
    simp only [show ¬((0:Int) < 0) by norm_num, if_false]
    rw [Nat.mod_eq_of_lt hc,
        ih (i + 1)
          ⟨bus.ok, bus.count + 4,
           bus.trace ++ byteWrites true s.backlight
             (if i < text.length then text.getD i 0 else 32)⟩ h]
    simp [List.range'_succ, List.append_assoc, Bus.mk.injEq]
    omega

lemma create_char_loop_allOk (s : i2clcd_t) (cm : List Nat)
    (hcm : ∀ c ∈ cm, c < 256) :
    ∀ (n i : Nat) (bus : Bus), bus.ok = allOk → i + n ≤ cm.length →
      i2clcd_create_char_loop s cm i n bus =
        (0, ⟨bus.ok, bus.count + 4 * n,
             bus.trace ++ ((List.range' i n).map (fun j =>
               byteWrites true s.backlight (cm.getD j 0))).flatten⟩) := by
  intro n
  induction n with
  | zero => intro i bus h hlen; simp [i2clcd_create_char_loop]
  | succ m ih =>
    intro i bus h hlen
    have hc : cm.getD i 0 < 256 := getD_lt_of_forall hcm i (by omega)
    simp only [i2clcd_create_char_loop]
    rw [data_allOk s _ bus h]
    simp only [show ¬((0:Int) < 0) by norm_num, if_false]
    rw [Nat.mod_eq_of_lt hc,
        ih (i + 1)
          ⟨bus.ok, bus.count + 4,
           bus.trace ++ byteWrites true s.backlight (cm.getD i 0)⟩ h (by omega)]
    simp [List.range'_succ, List.append_assoc, Bus.mk.injEq]
    omega

/-- In-range `i2clcd_set_cursor` on an all-success bus: one set-DDRAM-address
command at `line_addr[row] + col` (as a `uint8_t`). -/
lemma set_cursor_ok (s : i2clcd_t) (bus : Bus) (col row : Nat)
    (hrow : row < s.rows) (hcol : col < s.cols)
    (hcols : s.cols < 256) (hrows : s.rows ≤ 4)
    (hok : bus.ok = allOk) :
    i2clcd_set_cursor (some s) col row bus =
      (I2CLCD_OK, some s,
       ⟨bus.ok, bus.count + 4,
        bus.trace ++ byteWrites false s.backlight
          (HD44780_CMD_SET_DDRAM ||| (s.line_addr.getD row 0 + col) % 256)⟩) := by
  have hmrow : row % 256 = row := Nat.mod_eq_of_lt (by omega)
  have hmcol : col % 256 = col := Nat.mod_eq_of_lt (by omega)
  have hcond : ¬(row ≥ s.rows ∨ col ≥ s.cols) := by omega
  have haddr : (s.line_addr.getD row 0 + col) % 256 < 256 :=
    Nat.mod_lt _ (by norm_num)
  have hcmd : HD44780_CMD_SET_DDRAM ||| (s.line_addr.getD row 0 + col) % 256 < 256 :=
    or_lt_256 (by norm_num [HD44780_CMD_SET_DDRAM]) haddr
  simp only [i2clcd_set_cursor, hmrow, hmcol, if_neg hcond]
  rw [command_allOk s _ bus hok, Nat.mod_eq_of_lt hcmd]
  simp

/-! ## Claim C6 -/

/-- C6: on an open session, `i2clcd_set_cursor(col, row)` with `row < rows`
and `col < cols` issues the set-DDRAM-address command with value
`line_addr[row] + col` (as the `uint8_t` the C code computes); with
`row ≥ rows` or `col ≥ cols` it returns `I2CLCD_ERR_RANGE` and issues zero
bus writes; `i2clcd_clear_line(line)` with `line ≥ rows` likewise returns
`I2CLCD_ERR_RANGE` with zero bus writes. -/
theorem c6_cursor_addressing (s : i2clcd_t) (bus : Bus) (col row line : Nat)
    (hcols : s.cols < 256) (hrows : s.rows ≤ 4)
    (hcol : col < 256) (hrow : row < 256) (hline : line < 256)
    (hok : bus.ok = allOk) :
    (row < s.rows → col < s.cols →
      i2clcd_set_cursor (some s) col row bus =
        (I2CLCD_OK, some s,
         ⟨bus.ok, bus.count + 4,
          bus.trace ++ byteWrites false s.backlight
            (HD44780_CMD_SET_DDRAM ||| (s.line_addr.getD row 0 + col) % 256)⟩)) ∧
    (row ≥ s.rows ∨ col ≥ s.cols →
      i2clcd_set_cursor (some s) col row bus = (I2CLCD_ERR_RANGE, some s, bus)) ∧
    (line ≥ s.rows →
      i2clcd_clear_line (some s) line bus = (I2CLCD_ERR_RANGE, some s, bus)) := by
  have hmrow : row % 256 = row := Nat.mod_eq_of_lt hrow
  have hmcol : col % 256 = col := Nat.mod_eq_of_lt hcol
  have hmline : line % 256 = line := Nat.mod_eq_of_lt hline
  refine ⟨?_, ?_, ?_⟩
  · intro h1 h2
    exact set_cursor_ok s bus col row h1 h2 hcols hrows hok
  · intro hor
    simp [i2clcd_set_cursor, hmrow, hmcol, hor]
  · intro hl
    simp [i2clcd_clear_line, hmline, hl]

theorem c6_witness :
    (1 < sampleCtx.rows → 3 < sampleCtx.cols →
      i2clcd_set_cursor (some sampleCtx) 3 1 okBus =
        (I2CLCD_OK, some sampleCtx,
         ⟨okBus.ok, okBus.count + 4,
          okBus.trace ++ byteWrites false sampleCtx.backlight
            (HD44780_CMD_SET_DDRAM ||| (sampleCtx.line_addr.getD 1 0 + 3) % 256)⟩)) ∧
    (1 ≥ sampleCtx.rows ∨ 3 ≥ sampleCtx.cols →
      i2clcd_set_cursor (some sampleCtx) 3 1 okBus =
        (I2CLCD_ERR_RANGE, some sampleCtx, okBus)) ∧
    (2 ≥ sampleCtx.rows →
      i2clcd_clear_line (some sampleCtx) 2 okBus =
        (I2CLCD_ERR_RANGE, some sampleCtx, okBus)) :=
  c6_cursor_addressing sampleCtx okBus 3 1 2 (by decide) (by decide)
    (by decide) (by decide) (by decide) rfl

/-! ## Claim C7 -/

/-- C7: on an open session with `0 < cols` and a valid `line < rows`,
`i2clcd_set_line(line, s)` repositions to (0, line) and then writes exactly
`cols` data bytes — character `i` of the text for `i < length`, the space
character (32) for `length ≤ i < cols` — and returns `I2CLCD_OK` (there is no
length-mismatch error). -/
theorem c7_set_line_pads_to_columns (s : i2clcd_t) (bus : Bus) (line : Nat)
    (text : List Nat)
    (hc0 : 0 < s.cols) (hcols : s.cols < 256) (hrows : s.rows ≤ 4)
    (hline : line < s.rows) (htext : ∀ c ∈ text, c < 256)
    (hok : bus.ok = allOk) :
    (i2clcd_set_line (some s) line (some text) bus).1 = I2CLCD_OK ∧
    (i2clcd_set_line (some s) line (some text) bus).2.2.trace =
      bus.trace
      ++ byteWrites false s.backlight
           (HD44780_CMD_SET_DDRAM ||| (s.line_addr.getD line 0 + 0) % 256)
      ++ ((List.range s.cols).map (fun i =>
            byteWrites true s.backlight
              (if i < text.length then text.getD i 0 else 32))).flatten := by
  have hline256 : line < 256 := by omega
  have hmline : line % 256 = line := Nat.mod_eq_of_lt hline256
  simp only [i2clcd_set_line, hmline, if_neg (by omega : ¬(line ≥ s.rows))]
  rw [set_cursor_ok s bus 0 line hline hc0 hcols hrows hok]
  simp only [show ¬((I2CLCD_OK, some s,
      (⟨bus.ok, bus.count + 4,
        bus.trace ++ byteWrites false s.backlight
          (HD44780_CMD_SET_DDRAM ||| (s.line_addr.getD line 0 + 0) % 256)⟩ : Bus)).1
      ≠ I2CLCD_OK) by simp, if_false]
  rw [set_line_loop_allOk s text htext s.cols 0
        ⟨bus.ok, bus.count + 4,
         bus.trace ++ byteWrites false s.backlight
           (HD44780_CMD_SET_DDRAM ||| (s.line_addr.getD line 0 + 0) % 256)⟩ hok]
  simp [List.range_eq_range', List.append_assoc]

theorem c7_witness :
    (i2clcd_set_line (some sampleCtx) 1 (some [65, 66, 67]) okBus).1 = I2CLCD_OK ∧
    (i2clcd_set_line (some sampleCtx) 1 (some [65, 66, 67]) okBus).2.2.trace =
      okBus.trace
      ++ byteWrites false sampleCtx.backlight
           (HD44780_CMD_SET_DDRAM ||| (sampleCtx.line_addr.getD 1 0 + 0) % 256)
      ++ ((List.range sampleCtx.cols).map (fun i =>
            byteWrites true sampleCtx.backlight
              (if i < ([65, 66, 67] : List Nat).length
               then ([65, 66, 67] : List Nat).getD i 0 else 32))).flatten :=
  c7_set_line_pads_to_columns sampleCtx okBus 1 [65, 66, 67]
    (by decide) (by decide) (by decide) (by decide) (by decide) rfl

/-! ## Claim C8 -/

/-- C8: on an open session with a non-null 8-byte pattern,
`i2clcd_create_char` with slot > 7 returns `I2CLCD_ERR_RANGE` and issues zero
bus writes; with slot ≤ 7 it issues exactly one set-CGRAM-address command for
`slot << 3`, then exactly 8 data-byte transmissions (one per glyph row), then
exactly one set-DDRAM-address command restoring DDRAM addressing at
address 0. -/
theorem c8_create_char (s : i2clcd_t) (bus : Bus) (slot : Nat) (cm : List Nat)
    (hslot256 : slot < 256) (hcm : ∀ c ∈ cm, c < 256) (hlen : cm.length = 8)
    (hok : bus.ok = allOk) :
    (7 < slot →
      i2clcd_create_char (some s) slot (some cm) bus =
        (I2CLCD_ERR_RANGE, some s, bus)) ∧
    (slot ≤ 7 →
      (i2clcd_create_char (some s) slot (some cm) bus).1 = I2CLCD_OK ∧
      (i2clcd_create_char (some s) slot (some cm) bus).2.2.trace =
        bus.trace
        ++ byteWrites false s.backlight (HD44780_CMD_SET_CGRAM ||| (slot <<< 3))
        ++ ((List.range 8).map (fun i =>
              byteWrites true s.backlight (cm.getD i 0))).flatten
        ++ byteWrites false s.backlight HD44780_CMD_SET_DDRAM) := by
  have hmslot : slot % 256 = slot := Nat.mod_eq_of_lt hslot256
  refine ⟨?_, ?_⟩
  · intro h7
    simp [i2clcd_create_char, hmslot, h7]
  · intro h7
    have hsh : slot <<< 3 < 256 := by
      rw [Nat.shiftLeft_eq]
      omega
    have hcgram : HD44780_CMD_SET_CGRAM ||| (slot <<< 3) < 256 :=
      or_lt_256 (by norm_num [HD44780_CMD_SET_CGRAM]) hsh
    simp only [i2clcd_create_char, hmslot, if_neg (by omega : ¬(slot > 7))]
    rw [command_allOk s _ bus hok]
    simp only [show ¬((0:Int) < 0) by norm_num, if_false]
    rw [Nat.mod_eq_of_lt hcgram]
    rw [create_char_loop_allOk s cm hcm 8 0
          ⟨bus.ok, bus.count + 4,
           bus.trace ++ byteWrites false s.backlight
             (HD44780_CMD_SET_CGRAM ||| (slot <<< 3))⟩ hok (by omega)]
    simp only [show ¬((0:Int) < 0) by norm_num, if_false]
    rw [command_allOk s HD44780_CMD_SET_DDRAM
          ⟨bus.ok, bus.count + 4 + 4 * 8,
           bus.trace ++ byteWrites false s.backlight
               (HD44780_CMD_SET_CGRAM ||| (slot <<< 3))
             ++ ((List.range' 0 8).map (fun j =>
                   byteWrites true s.backlight (cm.getD j 0))).flatten⟩ hok]
    simp [List.range_eq_range', List.append_assoc, HD44780_CMD_SET_DDRAM]

theorem c8_witness :
    (7 < 8 →
      i2clcd_create_char (some sampleCtx) 8
          (some [1, 2, 3, 4, 5, 6, 7, 0]) okBus =
        (I2CLCD_ERR_RANGE, some sampleCtx, okBus)) ∧
    (8 ≤ 7 →
      (i2clcd_create_char (some sampleCtx) 8
          (some [1, 2, 3, 4, 5, 6, 7, 0]) okBus).1 = I2CLCD_OK ∧
      (i2clcd_create_char (some sampleCtx) 8
          (some [1, 2, 3, 4, 5, 6, 7, 0]) okBus).2.2.trace =
        okBus.trace
        ++ byteWrites false sampleCtx.backlight
             (HD44780_CMD_SET_CGRAM ||| (8 <<< 3))
        ++ ((List.range 8).map (fun i =>
              byteWrites true sampleCtx.backlight
                (([1, 2, 3, 4, 5, 6, 7, 0] : List Nat).getD i 0))).flatten
        ++ byteWrites false sampleCtx.backlight HD44780_CMD_SET_DDRAM) :=
  c8_create_char sampleCtx okBus 8 [1, 2, 3, 4, 5, 6, 7, 0]
    (by decide) (by decide) (by decide) rfl

/-! ## Display-control bit arithmetic (for claim C9) -/

lemma and_lt_256 (d m : Nat) (hm : m < 256) : d &&& m < 256 := by
  have h := @Nat.and_lt_two_pow d m 8 (by simpa using hm)
  simpa using h

set_option maxRecDepth 100000 in
lemma ctrl_bits_all :
    ∀ d < 256, ∀ j < 8,
      ((d ||| 4).testBit j = (if j = 2 then true else d.testBit j)) ∧
      ((d &&& 0xFB).testBit j = (if j = 2 then false else d.testBit j)) ∧
      ((d ||| 2).testBit j = (if j = 1 then true else d.testBit j)) ∧
      ((d &&& 0xFD).testBit j = (if j = 1 then false else d.testBit j)) ∧
      ((d ||| 1).testBit j = (if j = 0 then true else d.testBit j)) ∧
      ((d &&& 0xFE).testBit j = (if j = 0 then false else d.testBit j)) ∧
      ((d ||| 1 ||| 2).testBit 0 = true) := by decide

lemma update_display_ctrl_allOk (s : i2clcd_t) (bus : Bus)
    (hd : s.display_ctrl < 256) (hok : bus.ok = allOk) :
    i2clcd_update_display_ctrl s bus =
      (0, ⟨bus.ok, bus.count + 4,
           bus.trace ++ byteWrites false s.backlight
             (HD44780_CMD_DISPLAY_CTRL ||| s.display_ctrl)⟩) := by
  have h8 : HD44780_CMD_DISPLAY_CTRL ||| s.display_ctrl < 256 :=
    or_lt_256 (by norm_num [HD44780_CMD_DISPLAY_CTRL]) hd
  simp only [i2clcd_update_display_ctrl]
  rw [command_allOk s _ bus hok, Nat.mod_eq_of_lt h8]

lemma display_allOk (s : i2clcd_t) (o : Bool) (bus : Bus)
    (hd : s.display_ctrl < 256) (hok : bus.ok = allOk) :
    i2clcd_display (some s) o bus =
      (I2CLCD_OK,
       some { s with display_ctrl :=
         if o then s.display_ctrl ||| HD44780_DISPLAY_ON
         else s.display_ctrl &&& 0xFB },
       ⟨bus.ok, bus.count + 4,
        bus.trace ++ byteWrites false s.backlight
          (HD44780_CMD_DISPLAY_CTRL |||
           (if o then s.display_ctrl ||| HD44780_DISPLAY_ON
            else s.display_ctrl &&& 0xFB))⟩) := by
  have hdnew : (if o then s.display_ctrl ||| HD44780_DISPLAY_ON
                else s.display_ctrl &&& 0xFB) < 256 := by
    cases o
    · simpa using and_lt_256 s.display_ctrl 0xFB (by norm_num)
    · simpa using or_lt_256 hd (by norm_num [HD44780_DISPLAY_ON])
  simp only [i2clcd_display]
  rw [update_display_ctrl_allOk _ bus hdnew hok]
  simp

lemma cursor_allOk (s : i2clcd_t) (o : Bool) (bus : Bus)
    (hd : s.display_ctrl < 256) (hok : bus.ok = allOk) :
    i2clcd_cursor (some s) o bus =
      (I2CLCD_OK,
       some { s with display_ctrl :=
         if o then s.display_ctrl ||| HD44780_CURSOR_ON
         else s.display_ctrl &&& 0xFD },
       ⟨bus.ok, bus.count + 4,
        bus.trace ++ byteWrites false s.backlight
          (HD44780_CMD_DISPLAY_CTRL |||
           (if o then s.display_ctrl ||| HD44780_CURSOR_ON
            else s.display_ctrl &&& 0xFD))⟩) := by
  have hdnew : (if o then s.display_ctrl ||| HD44780_CURSOR_ON
                else s.display_ctrl &&& 0xFD) < 256 := by
    cases o
    · simpa using and_lt_256 s.display_ctrl 0xFD (by norm_num)
    · simpa using or_lt_256 hd (by norm_num [HD44780_CURSOR_ON])
  simp only [i2clcd_cursor]
  rw [update_display_ctrl_allOk _ bus hdnew hok]
  simp

lemma blink_allOk (s : i2clcd_t) (o : Bool) (bus : Bus)
    (hd : s.display_ctrl < 256) (hok : bus.ok = allOk) :
    i2clcd_blink (some s) o bus =
      (I2CLCD_OK,
       some { s with display_ctrl :=
         if o then s.display_ctrl ||| HD44780_BLINK_ON
         else s.display_ctrl &&& 0xFE },
       ⟨bus.ok, bus.count + 4,
        bus.trace ++ byteWrites false s.backlight
          (HD44780_CMD_DISPLAY_CTRL |||
           (if o then s.display_ctrl ||| HD44780_BLINK_ON
            else s.display_ctrl &&& 0xFE))⟩) := by
  have hdnew : (if o then s.display_ctrl ||| HD44780_BLINK_ON
                else s.display_ctrl &&& 0xFE) < 256 := by
    cases o
    · simpa using and_lt_256 s.display_ctrl 0xFE (by norm_num)
    · simpa using or_lt_256 hd (by norm_num [HD44780_BLINK_ON])
  simp only [i2clcd_blink]
  rw [update_display_ctrl_allOk _ bus hdnew hok]
  simp

/-! ## Claim C9 -/

/-- C9: the display, cursor and blink toggles are independent — each
successful toggle changes only its own bit of the display-control register
(bit 2, bit 1, bit 0 respectively) and re-sends the whole register on the
wire; in particular `i2clcd_cursor true` after `i2clcd_blink true` sends a
register value whose blink bit is still set. -/
theorem c9_toggle_independence (s : i2clcd_t) (bus : Bus)
    (hd : s.display_ctrl < 256) (hok : bus.ok = allOk) :
    (∀ o : Bool,
      (i2clcd_display (some s) o bus).1 = I2CLCD_OK ∧
      (∀ j, j < 8 →
        (handle_ctrl (i2clcd_display (some s) o bus).2.1).testBit j =
          (if j = 2 then o else s.display_ctrl.testBit j)) ∧
      (i2clcd_display (some s) o bus).2.2.trace =
        bus.trace ++ byteWrites false s.backlight
          (HD44780_CMD_DISPLAY_CTRL |||
           handle_ctrl (i2clcd_display (some s) o bus).2.1)) ∧
    (∀ o : Bool,
      (i2clcd_cursor (some s) o bus).1 = I2CLCD_OK ∧
      (∀ j, j < 8 →
        (handle_ctrl (i2clcd_cursor (some s) o bus).2.1).testBit j =
          (if j = 1 then o else s.display_ctrl.testBit j)) ∧
      (i2clcd_cursor (some s) o bus).2.2.trace =
        bus.trace ++ byteWrites false s.backlight
          (HD44780_CMD_DISPLAY_CTRL |||
           handle_ctrl (i2clcd_cursor (some s) o bus).2.1)) ∧
    (∀ o : Bool,
      (i2clcd_blink (some s) o bus).1 = I2CLCD_OK ∧
      (∀ j, j < 8 →
        (handle_ctrl (i2clcd_blink (some s) o bus).2.1).testBit j =
          (if j = 0 then o else s.display_ctrl.testBit j)) ∧
      (i2clcd_blink (some s) o bus).2.2.trace =
        bus.trace ++ byteWrites false s.backlight
          (HD44780_CMD_DISPLAY_CTRL |||
           handle_ctrl (i2clcd_blink (some s) o bus).2.1)) ∧
    ((handle_ctrl (i2clcd_cursor (i2clcd_blink (some s) true bus).2.1 true
        (i2clcd_blink (some s) true bus).2.2).2.1).testBit 0 = true ∧
     (i2clcd_cursor (i2clcd_blink (some s) true bus).2.1 true
        (i2clcd_blink (some s) true bus).2.2).2.2.trace =
       (i2clcd_blink (some s) true bus).2.2.trace ++
         byteWrites false s.backlight
           (HD44780_CMD_DISPLAY_CTRL |||
            handle_ctrl (i2clcd_cursor (i2clcd_blink (some s) true bus).2.1 true
              (i2clcd_blink (some s) true bus).2.2).2.1)) := by
  refine ⟨?_, ?_, ?_, ?_⟩
  · intro o
    rw [display_allOk s o bus hd hok]
    refine ⟨rfl, ?_, by simp [handle_ctrl]⟩
    intro j hj
    simp only [handle_ctrl]
    rcases ctrl_bits_all s.display_ctrl hd j hj with ⟨h1, h2, _⟩
    cases o <;> simp_all [HD44780_DISPLAY_ON]
  · intro o
    rw [cursor_allOk s o bus hd hok]
    refine ⟨rfl, ?_, by simp [handle_ctrl]⟩
    intro j hj
    simp only [handle_ctrl]
    rcases ctrl_bits_all s.display_ctrl hd j hj with ⟨_, _, h3, h4, _⟩
    cases o <;> simp_all [HD44780_CURSOR_ON]
  · intro o
    rw [blink_allOk s o bus hd hok]
    refine ⟨rfl, ?_, by simp [handle_ctrl]⟩
    intro j hj
    simp only [handle_ctrl]
    rcases ctrl_bits_all s.display_ctrl hd j hj with ⟨_, _, _, _, h5, h6, _⟩
    cases o <;> simp_all [HD44780_BLINK_ON]
  · have hb := blink_allOk s true bus hd hok
    have hd1 : s.display_ctrl ||| HD44780_BLINK_ON < 256 :=
      or_lt_256 hd (by norm_num [HD44780_BLINK_ON])
    have hc := cursor_allOk
      { s with display_ctrl := s.display_ctrl ||| HD44780_BLINK_ON } true
      ⟨bus.ok, bus.count + 4,
       bus.trace ++ byteWrites false s.backlight
         (HD44780_CMD_DISPLAY_CTRL ||| (s.display_ctrl ||| HD44780_BLINK_ON))⟩
      hd1 hok
    rw [hb]
    dsimp only
    simp only [reduceIte]
    rw [hc]
    dsimp only [handle_ctrl]
    exact ⟨by simp [HD44780_BLINK_ON, HD44780_CURSOR_ON], by simp⟩

theorem c9_witness :
    (∀ o : Bool,
      (i2clcd_display (some c3ctx) o okBus).1 = I2CLCD_OK ∧
      (∀ j, j < 8 →
        (handle_ctrl (i2clcd_display (some c3ctx) o okBus).2.1).testBit j =
          (if j = 2 then o else c3ctx.display_ctrl.testBit j)) ∧
      (i2clcd_display (some c3ctx) o okBus).2.2.trace =
        okBus.trace ++ byteWrites false c3ctx.backlight
          (HD44780_CMD_DISPLAY_CTRL |||
           handle_ctrl (i2clcd_display (some c3ctx) o okBus).2.1)) ∧
    (∀ o : Bool,
      (i2clcd_cursor (some c3ctx) o okBus).1 = I2CLCD_OK ∧
      (∀ j, j < 8 →
        (handle_ctrl (i2clcd_cursor (some c3ctx) o okBus).2.1).testBit j =
          (if j = 1 then o else c3ctx.display_ctrl.testBit j)) ∧
      (i2clcd_cursor (some c3ctx) o okBus).2.2.trace =
        okBus.trace ++ byteWrites false c3ctx.backlight
          (HD44780_CMD_DISPLAY_CTRL |||
           handle_ctrl (i2clcd_cursor (some c3ctx) o okBus).2.1)) ∧
    (∀ o : Bool,
      (i2clcd_blink (some c3ctx) o okBus).1 = I2CLCD_OK ∧
      (∀ j, j < 8 →
        (handle_ctrl (i2clcd_blink (some c3ctx) o okBus).2.1).testBit j =
          (if j = 0 then o else c3ctx.display_ctrl.testBit j)) ∧
      (i2clcd_blink (some c3ctx) o okBus).2.2.trace =
        okBus.trace ++ byteWrites false c3ctx.backlight
          (HD44780_CMD_DISPLAY_CTRL |||
           handle_ctrl (i2clcd_blink (some c3ctx) o okBus).2.1)) ∧
    ((handle_ctrl (i2clcd_cursor (i2clcd_blink (some c3ctx) true okBus).2.1 true
        (i2clcd_blink (some c3ctx) true okBus).2.2).2.1).testBit 0 = true ∧
     (i2clcd_cursor (i2clcd_blink (some c3ctx) true okBus).2.1 true
        (i2clcd_blink (some c3ctx) true okBus).2.2).2.2.trace =
       (i2clcd_blink (some c3ctx) true okBus).2.2.trace ++
         byteWrites false c3ctx.backlight
           (HD44780_CMD_DISPLAY_CTRL |||
            handle_ctrl (i2clcd_cursor (i2clcd_blink (some c3ctx) true okBus).2.1
              true (i2clcd_blink (some c3ctx) true okBus).2.2).2.1)) :=
  c9_toggle_independence c3ctx okBus (by decide) rfl

/-! ## Preservation of the line-address table (for claim C10) -/

lemma lineaddr_clear (h : Option i2clcd_t) (bus : Bus) :
    handle_line_addr (i2clcd_clear h bus).2.1 = handle_line_addr h := by
  cases h with
  | none => rfl
  | some s =>
    dsimp only [i2clcd_clear]
    repeat' split
    all_goals rfl

lemma lineaddr_home (h : Option i2clcd_t) (bus : Bus) :
    handle_line_addr (i2clcd_home h bus).2.1 = handle_line_addr h := by
  cases h with
  | none => rfl
  | some s =>
    dsimp only [i2clcd_home]
    repeat' split
    all_goals rfl

lemma lineaddr_set_cursor (h : Option i2clcd_t) (col row : Nat) (bus : Bus) :
    handle_line_addr (i2clcd_set_cursor h col row bus).2.1 = handle_line_addr h := by
  cases h with
  | none => rfl
  | some s =>
    dsimp only [i2clcd_set_cursor]
    repeat' split
    all_goals rfl

lemma lineaddr_clear_line (h : Option i2clcd_t) (line : Nat) (bus : Bus) :
    handle_line_addr (i2clcd_clear_line h line bus).2.1 = handle_line_addr h := by
  cases h with
  | none => rfl
  | some s =>
    dsimp only [i2clcd_clear_line]
    repeat' split
    all_goals rfl

lemma lineaddr_display (h : Option i2clcd_t) (o : Bool) (bus : Bus) :
    handle_line_addr (i2clcd_display h o bus).2.1 = handle_line_addr h := by
  cases h with
  | none => rfl
  | some s =>
    dsimp only [i2clcd_display]
    repeat' split
    all_goals rfl

lemma lineaddr_cursor (h : Option i2clcd_t) (o : Bool) (bus : Bus) :
    handle_line_addr (i2clcd_cursor h o bus).2.1 = handle_line_addr h := by
  cases h with
  | none => rfl
  | some s =>
    dsimp only [i2clcd_cursor]
    repeat' split
    all_goals rfl

lemma lineaddr_blink (h : Option i2clcd_t) (o : Bool) (bus : Bus) :
    handle_line_addr (i2clcd_blink h o bus).2.1 = handle_line_addr h := by
  cases h with
  | none => rfl
  | some s =>
    dsimp only [i2clcd_blink]
    repeat' split
    all_goals rfl

lemma lineaddr_putc (h : Option i2clcd_t) (c : Nat) (bus : Bus) :
    handle_line_addr (i2clcd_putc h c bus).2.1 = handle_line_addr h := by
  cases h with
  | none => rfl
  | some s =>
    dsimp only [i2clcd_putc]
    repeat' split
    all_goals rfl

lemma lineaddr_puts (h : Option i2clcd_t) (str : Option (List Nat)) (bus : Bus) :
    handle_line_addr (i2clcd_puts h str bus).2.1 = handle_line_addr h := by
  cases h with
  | none => rfl
  | some s =>
    cases str with
    | none => rfl
    | some cs =>
      dsimp only [i2clcd_puts]
      repeat' split
      all_goals rfl

lemma lineaddr_printf (h : Option i2clcd_t) (str : Option (List Nat)) (bus : Bus) :
    handle_line_addr (i2clcd_printf h str bus).2.1 = handle_line_addr h := by
  cases h with
  | none => rfl
  | some s =>
    cases str with
    | none => rfl
    | some cs =>
      dsimp only [i2clcd_printf, i2clcd_puts]
      repeat' split
      all_goals rfl

lemma lineaddr_set_line (h : Option i2clcd_t) (line : Nat)
    (text : Option (List Nat)) (bus : Bus) :
    handle_line_addr (i2clcd_set_line h line text bus).2.1 = handle_line_addr h := by
  cases h with
  | none => rfl
  | some s =>
    cases text with
    | none => rfl
    | some t =>
      dsimp only [i2clcd_set_line]
      repeat' split
      all_goals rfl

lemma lineaddr_backlight (h : Option i2clcd_t) (o : Bool) (bus : Bus) :
    handle_line_addr (i2clcd_backlight h o bus).2.1 = handle_line_addr h := by
  cases h with
  | none => rfl
  | some s =>
    dsimp only [i2clcd_backlight]
    repeat' split
    all_goals rfl

lemma lineaddr_backlight_get (h : Option i2clcd_t) (bus : Bus) :
    handle_line_addr (i2clcd_backlight_get h bus).2.2.1 = handle_line_addr h := by
  cases h <;> rfl

lemma lineaddr_create_char (h : Option i2clcd_t) (loc : Nat)
    (cm : Option (List Nat)) (bus : Bus) :
    handle_line_addr (i2clcd_create_char h loc cm bus).2.1 = handle_line_addr h := by
  cases h with
  | none => rfl
  | some s =>
    cases cm with
    | none => rfl
    | some l =>
      dsimp only [i2clcd_create_char]
      repeat' split
      all_goals rfl

lemma lineaddr_get_size (h : Option i2clcd_t) (bus : Bus) :
    handle_line_addr (i2clcd_get_size h bus).2.2.1 = handle_line_addr h := by
  cases h <;> rfl

/-! ## Claim C10 -/

/-- C10: every session created by `i2clcd_open` or `i2clcd_init` carries the
fixed row base-address table 0x00, 0x40, 0x14, 0x54 (independent of the size
preset or custom dimensions), no public operation ever modifies the table,
and in particular a 16x2 session uses 0x00 and 0x40 for its two rows. -/
theorem c10_line_addr_fixed :
    (∀ (config : i2clcd_config_t) (env : SysEnv) (s : i2clcd_t),
       (i2clcd_open config env).2 = some s →
       s.line_addr = [0x00, 0x40, 0x14, 0x54]) ∧
    (∀ (config : i2clcd_config_t) (env : SysEnv) (bus : Bus) (s : i2clcd_t),
       (i2clcd_init config env bus).2.1 = some s →
       s.line_addr = [0x00, 0x40, 0x14, 0x54]) ∧
    (∀ (h : Option i2clcd_t) (bus : Bus),
       handle_line_addr (i2clcd_clear h bus).2.1 = handle_line_addr h ∧
       handle_line_addr (i2clcd_home h bus).2.1 = handle_line_addr h ∧
       (∀ col row, handle_line_addr (i2clcd_set_cursor h col row bus).2.1 =
         handle_line_addr h) ∧
       (∀ line, handle_line_addr (i2clcd_clear_line h line bus).2.1 =
         handle_line_addr h) ∧
       (∀ o : Bool, handle_line_addr (i2clcd_display h o bus).2.1 =
         handle_line_addr h) ∧
       (∀ o : Bool, handle_line_addr (i2clcd_cursor h o bus).2.1 =
         handle_line_addr h) ∧
       (∀ o : Bool, handle_line_addr (i2clcd_blink h o bus).2.1 =
         handle_line_addr h) ∧
       (∀ c, handle_line_addr (i2clcd_putc h c bus).2.1 = handle_line_addr h) ∧
       (∀ str, handle_line_addr (i2clcd_puts h str bus).2.1 =
         handle_line_addr h) ∧
       (∀ str, handle_line_addr (i2clcd_printf h str bus).2.1 =
         handle_line_addr h) ∧
       (∀ line text, handle_line_addr (i2clcd_set_line h line text bus).2.1 =
         handle_line_addr h) ∧
       (∀ o : Bool, handle_line_addr (i2clcd_backlight h o bus).2.1 =
         handle_line_addr h) ∧
       handle_line_addr (i2clcd_backlight_get h bus).2.2.1 = handle_line_addr h ∧
       (∀ loc cm, handle_line_addr (i2clcd_create_char h loc cm bus).2.1 =
         handle_line_addr h) ∧
       handle_line_addr (i2clcd_get_size h bus).2.2.1 = handle_line_addr h) ∧
    (∀ (config : i2clcd_config_t) (env : SysEnv) (s : i2clcd_t),
       config.size = i2clcd_size_t.I2CLCD_16X2 →
       (i2clcd_open config env).2 = some s →
       s.line_addr.getD 0 0 = 0x00 ∧ s.line_addr.getD 1 0 = 0x40) := by
  refine ⟨?_, ?_, ?_, ?_⟩
  · intro config env s h
    rcases env with ⟨a, o, i⟩
    cases a <;> cases o <;> cases i <;>
      simp_all [i2clcd_open, openCtx, HD44780_LINE0_ADDR, HD44780_LINE1_ADDR,
                HD44780_LINE2_ADDR, HD44780_LINE3_ADDR]
    all_goals subst h
    all_goals rfl
  · intro config env bus s h
    rcases env with ⟨a, o, i⟩
    cases a <;> cases o <;> cases i <;>
      simp_all [i2clcd_open, i2clcd_init, openCtx, init_seq_ctx,
                HD44780_LINE0_ADDR, HD44780_LINE1_ADDR,
                HD44780_LINE2_ADDR, HD44780_LINE3_ADDR]
    all_goals subst h
    all_goals rfl
  · intro h bus
    exact ⟨lineaddr_clear h bus, lineaddr_home h bus,
           fun col row => lineaddr_set_cursor h col row bus,
           fun line => lineaddr_clear_line h line bus,
           fun o => lineaddr_display h o bus,
           fun o => lineaddr_cursor h o bus,
           fun o => lineaddr_blink h o bus,
           fun c => lineaddr_putc h c bus,
           fun str => lineaddr_puts h str bus,
           fun str => lineaddr_printf h str bus,
           fun line text => lineaddr_set_line h line text bus,
           fun o => lineaddr_backlight h o bus,
           lineaddr_backlight_get h bus,
           fun loc cm => lineaddr_create_char h loc cm bus,
           lineaddr_get_size h bus⟩
  · intro config env s _hsz h
    rcases env with ⟨a, o, i⟩
    cases a <;> cases o <;> cases i <;>
      simp_all [i2clcd_open, openCtx, HD44780_LINE0_ADDR, HD44780_LINE1_ADDR,
                HD44780_LINE2_ADDR, HD44780_LINE3_ADDR]
    all_goals subst h
    all_goals exact ⟨rfl, rfl⟩

theorem c10_witness :
    (openCtx cfgCustom00).line_addr = [0x00, 0x40, 0x14, 0x54] ∧
    (∀ s, (i2clcd_init cfg16 envAll okBus).2.1 = some s →
       s.line_addr = [0x00, 0x40, 0x14, 0x54]) ∧
    handle_line_addr (i2clcd_clear (some sampleCtx) okBus).2.1 =
      handle_line_addr (some sampleCtx) ∧
    (openCtx cfg16).line_addr.getD 0 0 = 0x00 ∧
    (openCtx cfg16).line_addr.getD 1 0 = 0x40 :=
  ⟨c10_line_addr_fixed.1 cfgCustom00 envAll (openCtx cfgCustom00) rfl,
   fun s hs => c10_line_addr_fixed.2.1 cfg16 envAll okBus s hs,
   (c10_line_addr_fixed.2.2.1 (some sampleCtx) okBus).1,
   (c10_line_addr_fixed.2.2.2 cfg16 envAll (openCtx cfg16) rfl rfl).1,
   (c10_line_addr_fixed.2.2.2 cfg16 envAll (openCtx cfg16) rfl rfl).2⟩
